/-
Verification of the match-statistics logic of the football dashboard
(src/app.py): the team-statistics aggregator `calculate_insights`
(lines 76-99), the head-to-head counter (lines 129-144), the
head-to-head bar-chart section (lines 122-170), and the top-scorers
ranking (lines 239-252), shallowly embedded over lists of match records.
-/
import Mathlib

/-- One row of the match spreadsheet: columns League, HomeTeam, AwayTeam,
Date, HomeGoals, AwayGoals, HomeFouls, AwayFouls (src/app.py line 25;
spec section 3).  Dates are encoded as naturals (e.g. 20240101), which
preserves the calendar order used by the date-range comparisons. -/
structure MatchRecord where
  league : String
  homeTeam : String
  awayTeam : String
  date : Nat
  homeGoals : Nat
  awayGoals : Nat
  homeFouls : Nat
  awayFouls : Nat
deriving DecidableEq, Repr

/-- The Team Statistics Summary returned by `calculate_insights`
(src/app.py lines 90-99).  `draws` is an integer because Python computes
it as `total_matches - wins - losses`, which can go negative on
degenerate data; the other counters are plain counts.  The average is a
rational, as Python's float division is exact on the small values in
scope here. -/
structure Insights where
  totalMatches : Nat
  wins : Nat
  losses : Nat
  draws : Int
  cleanSheets : Nat
  totalGoals : Nat
  avgGoalsPerMatch : ℚ
  totalFouls : Nat
deriving DecidableEq, Repr

/-- Python's `round(x, 2)` (src/app.py line 97), modelled as rounding to
the nearest hundredth.  (Python breaks exact half-hundredth ties to even
on the float representation; no value in this development sits on such a
tie, so the tie rule is immaterial.) -/
def roundTo2 (q : ℚ) : ℚ := ((round (q * 100) : ℤ) : ℚ) / 100

/-- `calculate_insights` (src/app.py lines 76-99): given the record
subset already filtered for one team and a date range, plus the team
name, compute the eight summary statistics.  Each `let` mirrors one
assignment of the Python function, with pandas boolean-mask filters
rendered as list filters. -/
def calculate_insights (filtered_df : List MatchRecord) (team : String) : Insights :=
  let total_goals :=
    ((filtered_df.filter (fun r => r.homeTeam == team)).map (fun r => r.homeGoals)).sum +
    ((filtered_df.filter (fun r => r.awayTeam == team)).map (fun r => r.awayGoals)).sum
  let total_matches := filtered_df.length
  let avg_goals_per_match : ℚ :=
    if total_matches > 0 then (total_goals : ℚ) / (total_matches : ℚ) else 0
  let total_fouls :=
    ((filtered_df.filter (fun r => r.homeTeam == team)).map (fun r => r.homeFouls)).sum +
    ((filtered_df.filter (fun r => r.awayTeam == team)).map (fun r => r.awayFouls)).sum
  let wins :=
    (filtered_df.filter (fun r => r.homeTeam == team && decide (r.homeGoals > r.awayGoals))).length +
    (filtered_df.filter (fun r => r.awayTeam == team && decide (r.awayGoals > r.homeGoals))).length
  let losses :=
    (filtered_df.filter (fun r => r.homeTeam == team && decide (r.homeGoals < r.awayGoals))).length +
    (filtered_df.filter (fun r => r.awayTeam == team && decide (r.awayGoals < r.homeGoals))).length
  let draws : Int := (total_matches : Int) - (wins : Int) - (losses : Int)
  let clean_sheets :=
    (filtered_df.filter (fun r =>
      (r.homeTeam == team && r.awayGoals == 0) || (r.awayTeam == team && r.homeGoals == 0))).length
  { totalMatches := total_matches
    wins := wins
    losses := losses
    draws := draws
    cleanSheets := clean_sheets
    totalGoals := total_goals
    avgGoalsPerMatch := roundTo2 avg_goals_per_match
    totalFouls := total_fouls }

/-- First record of the spec section 8 example: LeagueA, TeamX at home
to TeamY on 2024-01-01, goals 2-1, fouls 3-2. -/
def exampleRecord1 : MatchRecord :=
  { league := "LeagueA", homeTeam := "TeamX", awayTeam := "TeamY", date := 20240101
    homeGoals := 2, awayGoals := 1, homeFouls := 3, awayFouls := 2 }

/-- Second record of the spec section 8 example: LeagueA, TeamY at home
to TeamX on 2024-01-08, goals 0-0, fouls 1-1. -/
def exampleRecord2 : MatchRecord :=
  { league := "LeagueA", homeTeam := "TeamY", awayTeam := "TeamX", date := 20240108
    homeGoals := 0, awayGoals := 0, homeFouls := 1, awayFouls := 1 }

/-- Claim C1: for every record subset and team name, the summary
produced by `calculate_insights` satisfies
wins + losses + draws = total_matches, with `draws` the derived value
total_matches - wins - losses (src/app.py line 87). -/
theorem insights_wins_losses_draws_partition (df : List MatchRecord) (team : String) :
    ((calculate_insights df team).wins : Int) + ((calculate_insights df team).losses : Int) +
      (calculate_insights df team).draws = ((calculate_insights df team).totalMatches : Int) := by
  simp only [calculate_insights]
  ring

/-- Claim C2: on the two-record example input, the aggregator applied to
TeamX returns exactly the summary stated in the spec: 2 matches, 1 win,
0 losses, 1 draw, 1 clean sheet, 2 goals, average 1.0, 4 fouls. -/
theorem insights_example_teamX :
    calculate_insights [exampleRecord1, exampleRecord2] "TeamX" =
      { totalMatches := 2, wins := 1, losses := 0, draws := 1, cleanSheets := 1
        totalGoals := 2, avgGoalsPerMatch := 1, totalFouls := 4 } := by
  simp only [calculate_insights, exampleRecord1, exampleRecord2]
  simp +decide only [List.filter, List.map, List.sum_cons, List.sum_nil, List.length]
  norm_num [roundTo2, round_eq]

/-- The all-zero Team Statistics Summary. -/
def zeroInsights : Insights :=
  { totalMatches := 0, wins := 0, losses := 0, draws := 0, cleanSheets := 0
    totalGoals := 0, avgGoalsPerMatch := 0, totalFouls := 0 }

/-- Claim C3: the aggregator is a total function (it is a Lean `def`,
defined on every input); on the empty record subset every statistic is
zero, and the average-goals division is guarded (src/app.py line 80), so
the average is 0 whenever total_matches is 0. -/
theorem insights_total_never_fails :
    (∀ team, calculate_insights [] team = zeroInsights) ∧
    (∀ df team, (calculate_insights df team).totalMatches = 0 →
      (calculate_insights df team).avgGoalsPerMatch = 0) := by
  constructor
  · intro team
    simp [calculate_insights, zeroInsights, roundTo2]
  · intro df team h
    have hdf : df = [] := List.length_eq_zero.mp (by simpa [calculate_insights] using h)
    subst hdf
    simp [calculate_insights, roundTo2]

/-- Witness for C3: at the concrete empty input, total_matches is 0 and
the average is 0. -/
theorem insights_total_never_fails_witness :
    (calculate_insights [] "TeamX").totalMatches = 0 ∧
    (calculate_insights [] "TeamX").avgGoalsPerMatch = 0 :=
  ⟨by decide, insights_total_never_fails.2 [] "TeamX" (by decide)⟩

/-- Splitting the two filtered sums of src/app.py lines 77-78 (and 81-82)
into a single per-record sum: a record contributes its home field when
the team is the home team and its away field when it is the away team. -/
theorem filter_sum_add_filter_sum (df : List MatchRecord) (p q : MatchRecord → Bool)
    (f g : MatchRecord → Nat) :
    ((df.filter p).map f).sum + ((df.filter q).map g).sum =
      (df.map (fun r => (if p r then f r else 0) + (if q r then g r else 0))).sum := by
  induction df with
  | nil => simp
  | cons r df ih =>
    by_cases hp : p r <;> by_cases hq : q r <;>
      simp [List.filter_cons, hp, hq] at ih ⊢ <;> omega

/-- Claim C5: total_goals is the sum, over the records, of the
home-goals field where the team is the home team plus the away-goals
field where it is the away team; total_fouls is the analogous sum of
the home-fouls and away-fouls fields (src/app.py lines 77-78, 81-82). -/
theorem insights_goals_fouls_are_sums (df : List MatchRecord) (team : String) :
    (calculate_insights df team).totalGoals =
      (df.map (fun r => (if r.homeTeam = team then r.homeGoals else 0) +
        (if r.awayTeam = team then r.awayGoals else 0))).sum ∧
    (calculate_insights df team).totalFouls =
      (df.map (fun r => (if r.homeTeam = team then r.homeFouls else 0) +
        (if r.awayTeam = team then r.awayFouls else 0))).sum := by
  constructor
  · rw [show (calculate_insights df team).totalGoals =
        ((df.filter (fun r => r.homeTeam == team)).map (fun r => r.homeGoals)).sum +
        ((df.filter (fun r => r.awayTeam == team)).map (fun r => r.awayGoals)).sum from rfl]
    rw [filter_sum_add_filter_sum]
    simp [beq_iff_eq]
  · rw [show (calculate_insights df team).totalFouls =
        ((df.filter (fun r => r.homeTeam == team)).map (fun r => r.homeFouls)).sum +
        ((df.filter (fun r => r.awayTeam == team)).map (fun r => r.awayFouls)).sum from rfl]
    rw [filter_sum_add_filter_sum]
    simp [beq_iff_eq]

/-- Claim C7: total_goals is invariant under reordering of the record
subset: permuting the input records leaves the filtered sums of
src/app.py lines 77-78 unchanged. -/
theorem insights_totalGoals_perm_invariant (df df' : List MatchRecord) (team : String)
    (h : df.Perm df') :
    (calculate_insights df team).totalGoals = (calculate_insights df' team).totalGoals := by
  simp only [calculate_insights]
  rw [List.Perm.sum_eq ((h.filter (fun r => r.homeTeam == team)).map (fun r => r.homeGoals)),
    List.Perm.sum_eq ((h.filter (fun r => r.awayTeam == team)).map (fun r => r.awayGoals))]

/-- Witness for C7: swapping the two example records leaves TeamX's
total goals unchanged. -/
theorem insights_totalGoals_perm_invariant_witness :
    List.Perm [exampleRecord1, exampleRecord2] [exampleRecord2, exampleRecord1] ∧
    (calculate_insights [exampleRecord1, exampleRecord2] "TeamX").totalGoals =
      (calculate_insights [exampleRecord2, exampleRecord1] "TeamX").totalGoals :=
  ⟨List.Perm.swap exampleRecord2 exampleRecord1 [],
    insights_totalGoals_perm_invariant _ _ "TeamX"
      (List.Perm.swap exampleRecord2 exampleRecord1 [])⟩

/-- A third-party fixture the example team plays no part in. -/
def exampleRecordOther : MatchRecord :=
  { league := "LeagueA", homeTeam := "TeamY", awayTeam := "TeamZ", date := 20240115
    homeGoals := 3, awayGoals := 0, homeFouls := 2, awayFouls := 5 }

/-- Claim C10: a record in which the team appears on neither side is
still counted in total_matches (src/app.py line 79 counts all rows),
adds nothing to wins, losses, clean sheets, total goals or total fouls
(every team-matching filter rejects it), and is therefore classified as
a draw by the derivation on line 87. -/
theorem insights_foreign_record_counts_as_draw (df : List MatchRecord) (r : MatchRecord)
    (team : String) (hh : r.homeTeam ≠ team) (ha : r.awayTeam ≠ team) :
    (calculate_insights (df ++ [r]) team).totalMatches =
      (calculate_insights df team).totalMatches + 1 ∧
    (calculate_insights (df ++ [r]) team).wins = (calculate_insights df team).wins ∧
    (calculate_insights (df ++ [r]) team).losses = (calculate_insights df team).losses ∧
    (calculate_insights (df ++ [r]) team).cleanSheets =
      (calculate_insights df team).cleanSheets ∧
    (calculate_insights (df ++ [r]) team).totalGoals =
      (calculate_insights df team).totalGoals ∧
    (calculate_insights (df ++ [r]) team).totalFouls =
      (calculate_insights df team).totalFouls ∧
    (calculate_insights (df ++ [r]) team).draws = (calculate_insights df team).draws + 1 := by
  have hb1 : (r.homeTeam == team) = false := beq_eq_false_iff_ne.mpr hh
  have hb2 : (r.awayTeam == team) = false := beq_eq_false_iff_ne.mpr ha
  refine ⟨?_, ?_, ?_, ?_, ?_, ?_, ?_⟩ <;>
    simp [calculate_insights, List.filter_append, List.filter_cons, hb1, hb2]
  ring

/-- Witness for C10: appending the TeamY-TeamZ fixture to the example
record list bumps TeamX's total_matches and draws by one and changes
nothing else. -/
theorem insights_foreign_record_counts_as_draw_witness :
    exampleRecordOther.homeTeam ≠ "TeamX" ∧ exampleRecordOther.awayTeam ≠ "TeamX" ∧
    (calculate_insights ([exampleRecord1] ++ [exampleRecordOther]) "TeamX").totalMatches =
      (calculate_insights [exampleRecord1] "TeamX").totalMatches + 1 :=
  ⟨by decide, by decide,
    (insights_foreign_record_counts_as_draw [exampleRecord1] exampleRecordOther "TeamX"
      (by decide) (by decide)).1⟩

/-- `head_to_head_data` (src/app.py lines 129-132): the rows of the full
dataset that are direct fixtures between the two selected teams, in
either home/away order. -/
def head_to_head_data (df : List MatchRecord) (team1 team2 : String) : List MatchRecord :=
  df.filter (fun r =>
    (r.homeTeam == team1 && r.awayTeam == team2) ||
    (r.homeTeam == team2 && r.awayTeam == team1))

/-- The wins counter of src/app.py lines 134-138: fixtures the team
plays at home with the higher score plus fixtures it plays away with
the higher score. -/
def h2h_team_wins (h2h : List MatchRecord) (team : String) : Nat :=
  (h2h.filter (fun r => r.homeTeam == team && decide (r.homeGoals > r.awayGoals))).length +
  (h2h.filter (fun r => r.awayTeam == team && decide (r.awayGoals > r.homeGoals))).length

/-- The draws counter of src/app.py line 140: fixtures with equal
scores. -/
def h2h_draws_count (h2h : List MatchRecord) : Nat :=
  (h2h.filter (fun r => r.homeGoals == r.awayGoals)).length

/-- On any list of direct fixtures between two distinct teams, each
record is exactly one of: a win for team 1, a win for team 2, or a
draw, so the three counters partition the list. -/
theorem h2h_partition_of_fixtures (t1 t2 : String) (hne : t1 ≠ t2) (l : List MatchRecord)
    (hl : ∀ r ∈ l, (r.homeTeam = t1 ∧ r.awayTeam = t2) ∨ (r.homeTeam = t2 ∧ r.awayTeam = t1)) :
    h2h_team_wins l t1 + h2h_team_wins l t2 + h2h_draws_count l = l.length := by
  induction l with
  | nil => rfl
  | cons r l ih =>
    have hr := hl r (List.mem_cons_self r l)
    have ihl := ih (fun x hx => hl x (List.mem_cons_of_mem r hx))
    have hne' : t2 ≠ t1 := Ne.symm hne
    rcases hr with ⟨hhome, haway⟩ | ⟨hhome, haway⟩
    · rcases Nat.lt_trichotomy r.homeGoals r.awayGoals with hg | hg | hg
      · simp [h2h_team_wins, h2h_draws_count, List.filter_cons, hhome, haway, hne, hne',
          hg, Nat.lt_asymm hg, Nat.ne_of_lt hg] at ihl ⊢
        omega
      · simp [h2h_team_wins, h2h_draws_count, List.filter_cons, hhome, haway, hne, hne',
          hg] at ihl ⊢
        omega
      · simp [h2h_team_wins, h2h_draws_count, List.filter_cons, hhome, haway, hne, hne',
          hg, Nat.lt_asymm hg, Ne.symm (Nat.ne_of_lt hg)] at ihl ⊢
        omega
    · rcases Nat.lt_trichotomy r.homeGoals r.awayGoals with hg | hg | hg
      · simp [h2h_team_wins, h2h_draws_count, List.filter_cons, hhome, haway, hne, hne',
          hg, Nat.lt_asymm hg, Nat.ne_of_lt hg] at ihl ⊢
        omega
      · simp [h2h_team_wins, h2h_draws_count, List.filter_cons, hhome, haway, hne, hne',
          hg] at ihl ⊢
        omega
      · simp [h2h_team_wins, h2h_draws_count, List.filter_cons, hhome, haway, hne, hne',
          hg, Nat.lt_asymm hg, Ne.symm (Nat.ne_of_lt hg)] at ihl ⊢
        omega

/-- Claim C6: for two distinct selected teams, the head-to-head counters
of src/app.py lines 134-142 satisfy
team1_wins + team2_wins + draws = total_direct_matches. -/
theorem h2h_wins_draws_partition (df : List MatchRecord) (t1 t2 : String) (hne : t1 ≠ t2) :
    h2h_team_wins (head_to_head_data df t1 t2) t1 +
      h2h_team_wins (head_to_head_data df t1 t2) t2 +
      h2h_draws_count (head_to_head_data df t1 t2) = (head_to_head_data df t1 t2).length := by
  apply h2h_partition_of_fixtures t1 t2 hne
  intro r hr
  have hcond := (List.mem_filter.mp hr).2
  simpa [Bool.or_eq_true, Bool.and_eq_true, beq_iff_eq] using hcond

/-- Witness for C6: the partition identity at the concrete example
dataset with the distinct teams TeamX and TeamY. -/
theorem h2h_wins_draws_partition_witness :
    "TeamX" ≠ "TeamY" ∧
    h2h_team_wins (head_to_head_data [exampleRecord1, exampleRecord2] "TeamX" "TeamY") "TeamX" +
      h2h_team_wins (head_to_head_data [exampleRecord1, exampleRecord2] "TeamX" "TeamY") "TeamY" +
      h2h_draws_count (head_to_head_data [exampleRecord1, exampleRecord2] "TeamX" "TeamY") =
      (head_to_head_data [exampleRecord1, exampleRecord2] "TeamX" "TeamY").length :=
  ⟨by decide, h2h_wins_draws_partition [exampleRecord1, exampleRecord2] "TeamX" "TeamY"
    (by decide)⟩

/-- One run of the head-to-head computation (src/app.py lines 129-142)
as executed by the script: the selected date range is in scope (it was
read on line 45 and used for `filtered_df1`), but the head-to-head rows
are taken from the full loaded dataset `df`, so the date bounds are
never consulted here. -/
def h2h_counts_run (df : List MatchRecord) (team1 team2 : String)
    (dateFrom dateTo : Nat) : Nat × Nat × Nat :=
  let _ := dateFrom
  let _ := dateTo
  let hd := head_to_head_data df team1 team2
  (h2h_team_wins hd team1, h2h_team_wins hd team2, h2h_draws_count hd)

/-- Claim C9: the head-to-head counts are computed over the full loaded
dataset, not the date-filtered subset: two runs that differ only in the
selected date range return identical team1_wins, team2_wins and draws. -/
theorem h2h_counts_ignore_date_range (df : List MatchRecord) (team1 team2 : String)
    (dateFrom dateTo dateFrom' dateTo' : Nat) :
    h2h_counts_run df team1 team2 dateFrom dateTo =
      h2h_counts_run df team1 team2 dateFrom' dateTo' := rfl

/-- A Python value as it appears in the head-to-head chart lists:
either the constant None or an integer count. -/
inductive PyVal where
  | pyNone : PyVal
  | pyInt : Int → PyVal
deriving DecidableEq, Repr

/-- Reading a Python name: `some v` means the name is bound to `v`;
`none` means the name was never assigned, so reading it raises
NameError with the standard message. -/
def readName (v : Option PyVal) (nm : String) : Except String PyVal :=
  match v with
  | some value => Except.ok value
  | none => Except.error ("NameError: name " ++ nm ++ " is not defined")

/-- The five names the head-to-head section of src/app.py works with:
whether each is bound, and to what. -/
structure H2HVars where
  team1_wins : Option PyVal
  team2_wins : Option PyVal
  draws : Option PyVal
  team1_losses : Option PyVal
  team2_losses : Option PyVal

/-- src/app.py lines 122-124: team1_wins, team2_wins and draws are
initialized to the value None; team1_losses and team2_losses are never
initialized. -/
def h2hVarsInit : H2HVars :=
  { team1_wins := some PyVal.pyNone, team2_wins := some PyVal.pyNone
    draws := some PyVal.pyNone, team1_losses := none, team2_losses := none }

/-- src/app.py lines 126-144: when both selected teams differ from the
sentinel "None", all five names are assigned from the head-to-head
counts (losses derived as total - own wins - draws); otherwise the
block is skipped and every name keeps its initial state. -/
def h2hVarsAfterBlock (df : List MatchRecord) (selected_team1 selected_team2 : String) :
    H2HVars :=
  if selected_team1 ≠ "None" ∧ selected_team2 ≠ "None" then
    let hd := head_to_head_data df selected_team1 selected_team2
    let t1w := h2h_team_wins hd selected_team1
    let t2w := h2h_team_wins hd selected_team2
    let d := h2h_draws_count hd
    let total := hd.length
    { team1_wins := some (PyVal.pyInt t1w), team2_wins := some (PyVal.pyInt t2w)
      draws := some (PyVal.pyInt d)
      team1_losses := some (PyVal.pyInt ((total : Int) - (t1w : Int) - (d : Int)))
      team2_losses := some (PyVal.pyInt ((total : Int) - (t2w : Int) - (d : Int))) }
  else h2hVarsInit

/-- src/app.py lines 145-157: the bar-chart code runs unconditionally
and builds `wins = [team1_wins, team2_wins]`,
`losses = [team1_losses, team2_losses]` and `draws = [draws, draws]`,
reading the five names in source order; reading an unassigned name
fails with NameError. -/
def h2hBarChartInputs (v : H2HVars) :
    Except String (List PyVal × List PyVal × List PyVal) := do
  let w1 ← readName v.team1_wins "team1_wins"
  let w2 ← readName v.team2_wins "team2_wins"
  let l1 ← readName v.team1_losses "team1_losses"
  let l2 ← readName v.team2_losses "team2_losses"
  let d ← readName v.draws "draws"
  Except.ok ([w1, w2], [l1, l2], [d, d])

/-- The whole head-to-head section, src/app.py lines 122-170:
conditional computation followed by unconditional chart construction. -/
def h2hSection (df : List MatchRecord) (selected_team1 selected_team2 : String) :
    Except String (List PyVal × List PyVal × List PyVal) :=
  h2hBarChartInputs (h2hVarsAfterBlock df selected_team1 selected_team2)

/-- Claim C8: whenever team 2 is left at the sentinel "None", the
head-to-head block is skipped, but the bar-chart code still executes
and reads team1_losses — a name that was never assigned — so evaluation
fails with a NameError instead of completing the render. -/
theorem h2h_chart_fails_when_team2_none (df : List MatchRecord) (selected_team1 : String) :
    h2hSection df selected_team1 "None" =
      Except.error "NameError: name team1_losses is not defined" := by
  have hcond : ¬(selected_team1 ≠ "None" ∧ ("None" : String) ≠ "None") := by simp
  unfold h2hSection h2hVarsAfterBlock
  rw [if_neg hcond]
  rfl

/-- src/app.py lines 239-241: the rows of the selected league whose date
lies in the inclusive selected range. -/
def filtered_league_data (df : List MatchRecord) (league : String)
    (dateFrom dateTo : Nat) : List MatchRecord :=
  df.filter (fun r =>
    r.league == league && decide (dateFrom ≤ r.date) && decide (r.date ≤ dateTo))

/-- The team names appearing in the merged groupby table of src/app.py
lines 244-251: every name occurring as a home team or as an away team
in the filtered data, each once. -/
def teamsOf (df : List MatchRecord) : List String :=
  (df.map (fun r => r.homeTeam) ++ df.map (fun r => r.awayTeam)).dedup

/-- `groupby('HomeTeam')['HomeGoals'].sum()` for one key (src/app.py
line 244): the sum of home goals over the rows whose home team is t. -/
def homeGoalsTotal (df : List MatchRecord) (t : String) : Nat :=
  ((df.filter (fun r => r.homeTeam == t)).map (fun r => r.homeGoals)).sum

/-- `groupby('AwayTeam')['AwayGoals'].sum()` for one key (src/app.py
line 245): the sum of away goals over the rows whose away team is t. -/
def awayGoalsTotal (df : List MatchRecord) (t : String) : Nat :=
  ((df.filter (fun r => r.awayTeam == t)).map (fun r => r.awayGoals)).sum

/-- The merged total-goals table of src/app.py lines 244-251: one row
per team name, whose TotalGoals entry is that team's home-goals group
total plus its away-goals group total (concat of the two groupings
followed by a summing groupby on the team name). -/
def total_goals_table (df : List MatchRecord) : List (String × Nat) :=
  (teamsOf df).map (fun t => (t, homeGoalsTotal df t + awayGoalsTotal df t))

/-- The descending TotalGoals order that `nlargest(6, 'TotalGoals')`
ranks by. -/
def goalsDesc (a b : String × Nat) : Prop := b.2 ≤ a.2

instance : DecidableRel goalsDesc := fun a b => Nat.decLe b.2 a.2

instance : IsTotal (String × Nat) goalsDesc := ⟨fun a b => Nat.le_total b.2 a.2⟩

instance : IsTrans (String × Nat) goalsDesc := ⟨fun _ _ _ h1 h2 => Nat.le_trans h2 h1⟩

/-- `top_scorers` (src/app.py line 252): `nlargest(6, 'TotalGoals')`,
i.e. the six rows of the merged table with the largest TotalGoals —
the table stably sorted in descending TotalGoals order, truncated to
six rows. -/
def top_scorers (df : List MatchRecord) (league : String) (dateFrom dateTo : Nat) :
    List (String × Nat) :=
  (List.insertionSort goalsDesc
    (total_goals_table (filtered_league_data df league dateFrom dateTo))).take 6

/-- Claim C4: for every league/date-range restriction, the top-scorers
ranking has at most 6 entries, is sorted in descending order of total
goals, and each returned team's listed total equals its home-goals
group total plus its away-goals group total over the restricted rows. -/
theorem top_scorers_spec (df : List MatchRecord) (league : String) (dateFrom dateTo : Nat) :
    (top_scorers df league dateFrom dateTo).length ≤ 6 ∧
    List.Sorted goalsDesc (top_scorers df league dateFrom dateTo) ∧
    ∀ p ∈ top_scorers df league dateFrom dateTo,
      p.2 = homeGoalsTotal (filtered_league_data df league dateFrom dateTo) p.1 +
        awayGoalsTotal (filtered_league_data df league dateFrom dateTo) p.1 := by
  refine ⟨List.length_take_le 6 _, ?_, ?_⟩
  · exact List.Pairwise.sublist (List.take_sublist 6 _)
      (List.sorted_insertionSort goalsDesc _)
  · intro p hp
    have hsorted : p ∈ List.insertionSort goalsDesc
        (total_goals_table (filtered_league_data df league dateFrom dateTo)) :=
      (List.take_sublist 6 _).subset hp
    have htable : p ∈ total_goals_table (filtered_league_data df league dateFrom dateTo) :=
      (List.perm_insertionSort goalsDesc _).subset hsorted
    obtain ⟨t, _, rfl⟩ := List.mem_map.mp htable
    rfl

/-- Witness for C4: on the example dataset restricted to LeagueA and a
range containing both dates, TeamX appears in the ranking with listed
total 2, which the theorem equates to its home-plus-away group total. -/
theorem top_scorers_spec_witness :
    ("TeamX", 2) ∈ top_scorers [exampleRecord1, exampleRecord2] "LeagueA" 20240101 20240131 ∧
    (("TeamX", 2) : String × Nat).2 =
      homeGoalsTotal
        (filtered_league_data [exampleRecord1, exampleRecord2] "LeagueA" 20240101 20240131)
        "TeamX" +
      awayGoalsTotal
        (filtered_league_data [exampleRecord1, exampleRecord2] "LeagueA" 20240101 20240131)
        "TeamX" :=
  ⟨by decide,
    (top_scorers_spec [exampleRecord1, exampleRecord2] "LeagueA" 20240101 20240131).2.2
      ("TeamX", 2) (by decide)⟩
